import Mathlib

/-!
Verification of the project/task tracking application (src/app.py) against its
specification.  The relational store is embedded shallowly: each SQLite table
becomes a list of rows, `AUTOINCREMENT` ids become explicit counters carried in
the store, and each Flask handler becomes a pure function on the store (returning
a `Bool` success flag where the handler distinguishes success from failure in its
JSON response).  Timestamps are abstracted as natural numbers: SQLite stores
`CURRENT_TIMESTAMP` as a `YYYY-MM-DD HH:MM:SS` string whose lexicographic order
agrees with chronological order, so `ORDER BY created_at` is order on `Nat`.
-/

namespace NProject

/-- Row of the `projects` table as declared in `init_db` (src/app.py lines 59-66):
id (AUTOINCREMENT primary key), name, description, status (default "active"),
icon_data (base64 text or NULL), created_at. -/
structure Project where
  id : Nat
  name : String
  description : String
  status : String
  icon_data : Option String
  created_at : Nat
deriving Repr, DecidableEq

/-- Row of the `tasks` table as declared in `init_db` (src/app.py lines 68-78):
id, project_id (NOT NULL), parent_task_id (nullable), name, description,
status (default "pending"), created_at. -/
structure Task where
  id : Nat
  project_id : Nat
  parent_task_id : Option Nat
  name : String
  description : String
  status : String
  created_at : Nat
deriving Repr, DecidableEq

/-- Row of the `comments` table as declared in `init_db` (src/app.py lines 80-87).
`entity_id` is an arbitrary integer: it is not a foreign key, and the HTTP layer
parses it with `type=int`, which can yield any integer. -/
structure Comment where
  id : Nat
  entity_type : String
  entity_id : Int
  content : String
  author : String
  created_at : Nat
deriving Repr, DecidableEq

/-- The whole SQLite database: the three tables plus the AUTOINCREMENT counters
for the two tables into which the handlers insert rows with generated ids. -/
structure Store where
  projects : List Project
  tasks : List Task
  comments : List Comment
  nextProjectId : Nat
  nextCommentId : Nat
deriving Repr, DecidableEq

/-- Embeds the `delete_project` handler (src/app.py lines 214-232).  It counts
ALL tasks whose `project_id` matches — the query
`SELECT COUNT(*) FROM tasks WHERE project_id = ?` has no `parent_task_id`
filter, so top-level tasks and subtasks both count.  A positive count makes the
handler close the connection and redirect with no change and no error detail;
otherwise it runs `DELETE FROM projects WHERE id = ?` and commits.  Both
branches answer with the same redirect to the index page. -/
def delete_project (s : Store) (project_id : Nat) : Store :=
  let task_count := (s.tasks.filter (fun t => decide (t.project_id = project_id))).length
  if task_count > 0 then s
  else { s with projects := s.projects.filter (fun p => decide (p.id ≠ project_id)) }

/-- Claim C1: `delete_project` succeeds (removes exactly the project row) iff
the count of tasks whose `project_id` equals the given id — which splits exactly
into top-level tasks plus subtasks — is zero; when that count is positive the
store is left completely unchanged. -/
theorem delete_project_iff_task_count_zero (s : Store) (pid : Nat) :
    ((s.tasks.filter (fun t => decide (t.project_id = pid))).length
      = (s.tasks.filter (fun t => decide (t.project_id = pid ∧ t.parent_task_id = none))).length
        + (s.tasks.filter (fun t => decide (t.project_id = pid ∧ t.parent_task_id ≠ none))).length)
    ∧ ((s.tasks.filter (fun t => decide (t.project_id = pid))).length = 0 →
        delete_project s pid
          = { s with projects := s.projects.filter (fun p => decide (p.id ≠ pid)) })
    ∧ (0 < (s.tasks.filter (fun t => decide (t.project_id = pid))).length →
        delete_project s pid = s) := by
  refine ⟨?_, ?_, ?_⟩
  · induction s.tasks with
    | nil => rfl
    | cons t ts ih =>
      by_cases h1 : t.project_id = pid
      · by_cases h2 : t.parent_task_id = none <;>
          simp [List.filter_cons, h1, h2, ih] <;> omega
      · simp [List.filter_cons, h1, ih]
  · intro h
    simp [delete_project, h]
  · intro h
    have h0 : ¬ (s.tasks.filter (fun t => decide (t.project_id = pid))).length = 0 := by omega
    simp [delete_project, h0]

/-- A fixture project used by concrete fixtures and witnesses. -/
def sampleProject : Project :=
  { id := 1, name := "alpha", description := "", status := "active",
    icon_data := none, created_at := 0 }

/-- Embeds the `delete_task` handler (src/app.py lines 350-363).  It looks up
the task's `project_id` (used only to choose the redirect target) and then runs
`DELETE FROM tasks WHERE id = ?`.  The connection opened by `get_db`
(src/app.py lines 49-53) never issues `PRAGMA foreign_keys = ON`, and SQLite
leaves foreign-key enforcement off by default, so the `ON DELETE CASCADE`
declared on `tasks.parent_task_id` in `init_db` does not fire: only the row
with the given id is removed, and subtasks of that task survive with a
dangling `parent_task_id`.  Comments are never touched. -/
def delete_task (s : Store) (task_id : Nat) : Store :=
  { s with tasks := s.tasks.filter (fun t => decide (t.id ≠ task_id)) }

/-- A fixture subtask: task 2 is a child of task 1 in project 1. -/
def sampleSubtask : Task :=
  { id := 2, project_id := 1, parent_task_id := some 1, name := "sub",
    description := "", status := "pending", created_at := 1 }

/-- A fixture comment attached to the subtask (task 2). -/
def sampleSubtaskComment : Comment :=
  { id := 1, entity_type := "task", entity_id := 2, content := "note",
    author := "User", created_at := 2 }

/-- A fixture store with a top-level task (id 1), its subtask (id 2) and a
comment on the subtask. -/
def storeParentChild : Store :=
  { projects := [sampleProject],
    tasks := [{ id := 1, project_id := 1, parent_task_id := none, name := "t",
                description := "", status := "pending", created_at := 0 },
              sampleSubtask],
    comments := [sampleSubtaskComment],
    nextProjectId := 2, nextCommentId := 2 }

/-- Claim C2, evaluated at the failing input: deleting top-level task 1 leaves
its subtask (task 2, whose `parent_task_id` is 1) in the tasks table, contrary
to the claimed cascade, while the comment on the subtask indeed remains.  The
`ON DELETE CASCADE` declared in the schema is inert because the application
never enables SQLite foreign-key enforcement. -/
theorem delete_task_no_cascade_at_failing_input :
    sampleSubtask.parent_task_id = some 1
    ∧ (delete_task storeParentChild 1).tasks = [sampleSubtask]
    ∧ (delete_task storeParentChild 1).comments = storeParentChild.comments := by
  refine ⟨rfl, ?_, rfl⟩
  decide

/-- A fixture store holding one project and no tasks. -/
def storeNoTasks : Store :=
  { projects := [sampleProject], tasks := [], comments := [],
    nextProjectId := 2, nextCommentId := 1 }

/-- A fixture top-level task of project 1. -/
def sampleTask : Task :=
  { id := 1, project_id := 1, parent_task_id := none, name := "t",
    description := "", status := "pending", created_at := 0 }

/-- A fixture store holding one project and one task attached to it. -/
def storeOneTask : Store :=
  { projects := [sampleProject], tasks := [sampleTask], comments := [],
    nextProjectId := 2, nextCommentId := 1 }

/-- Witness for C1: with zero attached tasks the project row is removed; with
one attached task the store is unchanged. -/
theorem delete_project_iff_task_count_zero_witness :
    delete_project storeNoTasks 1
      = { storeNoTasks with
          projects := storeNoTasks.projects.filter (fun p => decide (p.id ≠ 1)) }
    ∧ delete_project storeOneTask 1 = storeOneTask :=
  ⟨(delete_project_iff_task_count_zero storeNoTasks 1).2.1 (by decide),
   (delete_project_iff_task_count_zero storeOneTask 1).2.2 (by decide)⟩

/-- The per-subtask accumulation step of the progress loop in `project_detail`
(src/app.py lines 152-158): a pending subtask adds 0, an in_progress one adds
50, a completed one adds 100; any other status falls through the if/elif chain
and adds nothing. -/
def progressStep (total : Nat) (t : Task) : Nat :=
  if t.status = "pending" then total + 0
  else if t.status = "in_progress" then total + 50
  else if t.status = "completed" then total + 100
  else total

/-- The subtask query used by `project_detail` and `get_subtasks`
(src/app.py lines 142-146): the tasks whose `parent_task_id` equals the given
task id. -/
def subtasksOf (s : Store) (task_id : Nat) : List Task :=
  s.tasks.filter (fun t => decide (t.parent_task_id = some task_id))

/-- Embeds the progress computation of `project_detail` (src/app.py lines
149-161): with no subtasks the progress is None (no progress bar); otherwise
the loop total divided by the number of subtasks, truncated to an integer.
`int(total / len(subtasks))` truncates toward zero and both operands are
non-negative, so it is natural-number division. -/
def task_progress (s : Store) (task_id : Nat) : Option Nat :=
  let subs := subtasksOf s task_id
  if subs.isEmpty then none
  else some ((subs.foldl progressStep 0) / subs.length)

/-- The specification's per-subtask score: pending 0, in_progress 50,
completed 100. -/
def subtaskScore (st : String) : Nat :=
  if st = "pending" then 0
  else if st = "in_progress" then 50
  else if st = "completed" then 100
  else 0

lemma progressStep_eq_add_score (acc : Nat) (t : Task) :
    progressStep acc t = acc + subtaskScore t.status := by
  unfold progressStep subtaskScore
  split_ifs <;> omega

lemma progress_foldl_eq_sum (l : List Task) (acc : Nat) :
    l.foldl progressStep acc = acc + (l.map (fun t => subtaskScore t.status)).sum := by
  induction l generalizing acc with
  | nil => simp
  | cons t ts ih =>
    simp only [List.foldl_cons, List.map_cons, List.sum_cons, ih,
      progressStep_eq_add_score]
    omega

/-- Claim C3: a task's progress is `none` exactly when it has no subtasks, and
with `n ≥ 1` subtasks it is the truncated mean of the per-subtask scores,
where pending scores 0, in_progress 50 and completed 100. -/
theorem task_progress_mean_of_scores (s : Store) (tid : Nat) :
    (task_progress s tid = none ↔ subtasksOf s tid = [])
    ∧ (subtasksOf s tid ≠ [] →
        task_progress s tid
          = some (((subtasksOf s tid).map (fun t => subtaskScore t.status)).sum
                    / (subtasksOf s tid).length)) := by
  constructor
  · simp [task_progress, List.isEmpty_iff]
  · intro h
    have h2 : (subtasksOf s tid).isEmpty = false := by
      simpa [List.isEmpty_iff] using h
    simp [task_progress, h2, progress_foldl_eq_sum]

/-- A fixture store holding a top-level task 1 with two subtasks: one pending
(task 2) and one completed (task 3). -/
def storeTwoSubtasks : Store :=
  { projects := [sampleProject],
    tasks := [{ id := 1, project_id := 1, parent_task_id := none, name := "t",
                description := "", status := "pending", created_at := 0 },
              { id := 2, project_id := 1, parent_task_id := some 1, name := "a",
                description := "", status := "pending", created_at := 1 },
              { id := 3, project_id := 1, parent_task_id := some 1, name := "b",
                description := "", status := "completed", created_at := 2 }],
    comments := [],
    nextProjectId := 2, nextCommentId := 1 }

/-- Witness for C3: with subtasks [pending, completed] the progress is the
truncated mean of the scores, namely (0 + 100) / 2 = 50. -/
theorem task_progress_mean_of_scores_witness :
    subtasksOf storeTwoSubtasks 1 ≠ []
    ∧ task_progress storeTwoSubtasks 1
        = some (((subtasksOf storeTwoSubtasks 1).map (fun t => subtaskScore t.status)).sum
                  / (subtasksOf storeTwoSubtasks 1).length)
    ∧ task_progress storeTwoSubtasks 1 = some 50 :=
  ⟨by decide, (task_progress_mean_of_scores storeTwoSubtasks 1).2 (by decide), by decide⟩

/-- The ORDER BY key of the top-level task query in `project_detail`
(src/app.py lines 126-136): `CASE status WHEN pending THEN 1 WHEN in_progress
THEN 2 WHEN completed THEN 3 END`.  A status outside the three values yields
SQL NULL, which SQLite orders before every number when ascending; rank 0
models that. -/
def statusRank (st : String) : Nat :=
  if st = "pending" then 1
  else if st = "in_progress" then 2
  else if st = "completed" then 3
  else 0

/-- The row order produced by `ORDER BY` rank ascending, `created_at DESC`:
smaller status rank first, and within equal rank larger `created_at` first. -/
def taskBefore (a b : Task) : Prop :=
  statusRank a.status < statusRank b.status
  ∨ (statusRank a.status = statusRank b.status ∧ b.created_at ≤ a.created_at)

instance : DecidableRel taskBefore := fun a b => by
  unfold taskBefore
  infer_instance

instance : IsTotal Task taskBefore := by
  refine ⟨fun a b => ?_⟩
  unfold taskBefore
  omega

instance : IsTrans Task taskBefore := by
  refine ⟨fun a b c hab hbc => ?_⟩
  unfold taskBefore at hab hbc ⊢
  omega

/-- The WHERE clause of the top-level task query in `project_detail`
(src/app.py lines 126-128): tasks of the project whose `parent_task_id` is
NULL. -/
def topLevelTasks (s : Store) (project_id : Nat) : List Task :=
  s.tasks.filter (fun t => decide (t.project_id = project_id ∧ t.parent_task_id = none))

/-- Embeds the top-level task query of `project_detail` (src/app.py lines
126-136): the top-level tasks of the project, sorted by the `taskBefore`
key. -/
def list_top_level (s : Store) (project_id : Nat) : List Task :=
  List.insertionSort taskBefore (topLevelTasks s project_id)

/-- Claim C4: `list_top_level` returns exactly the tasks of the project with
NULL `parent_task_id`, sorted by status rank — with pending (rank 1) before
in_progress (rank 2) before completed (rank 3) — and within equal rank by
`created_at` descending. -/
theorem list_top_level_membership_and_order (s : Store) (pid : Nat) :
    List.Perm (list_top_level s pid) (topLevelTasks s pid)
    ∧ (∀ t : Task, t ∈ list_top_level s pid ↔
        t ∈ s.tasks ∧ t.project_id = pid ∧ t.parent_task_id = none)
    ∧ List.Sorted taskBefore (list_top_level s pid)
    ∧ statusRank "pending" < statusRank "in_progress"
    ∧ statusRank "in_progress" < statusRank "completed" := by
  refine ⟨List.perm_insertionSort _ _, ?_, List.sorted_insertionSort _ _,
    by decide, by decide⟩
  intro t
  simp [list_top_level, topLevelTasks, List.mem_filter, and_assoc]

/-- The three valid task statuses checked by `update_task_status`
(src/app.py line 341). -/
def validStatuses : List String := ["pending", "in_progress", "completed"]

/-- Embeds the `update_task_status` handler (src/app.py lines 336-348): when
the submitted status is one of the three valid values it runs
`UPDATE tasks SET status = ? WHERE id = ?`, commits and answers
success=True; otherwise it touches nothing and answers success=False with
HTTP 400.  The UPDATE matches zero or one row (id is the primary key) and
its row count is never inspected. -/
def update_task_status (s : Store) (task_id : Nat) (status : String) :
    Store × Bool :=
  if status ∈ validStatuses then
    let updated := s.tasks.map
      fun t => if t.id = task_id then { t with status := status } else t
    ({ s with tasks := updated }, true)
  else (s, false)

lemma update_task_status_snd (s : Store) (tid : Nat) (st : String) :
    (update_task_status s tid st).2 = true ↔ st ∈ validStatuses := by
  by_cases h : st ∈ validStatuses <;> simp [update_task_status, h]

/-- Claim C5: `update_task_status` reports success iff the submitted status is
one of pending, in_progress, completed; an invalid status leaves the store
unchanged with an explicit failure, and a valid one overwrites the status of
the matching task while every other task row is preserved. -/
theorem update_task_status_valid_iff (s : Store) (tid : Nat) (st : String) :
    ((update_task_status s tid st).2 = true ↔ st ∈ validStatuses)
    ∧ (st ∉ validStatuses → update_task_status s tid st = (s, false))
    ∧ (st ∈ validStatuses →
        ∀ t ∈ (update_task_status s tid st).1.tasks, t.id = tid → t.status = st)
    ∧ (∀ t ∈ (update_task_status s tid st).1.tasks, t.id ≠ tid → t ∈ s.tasks) := by
  by_cases h : st ∈ validStatuses
  · refine ⟨update_task_status_snd s tid st, by simp [h], ?_, ?_⟩
    · intro _ t ht htid
      simp only [update_task_status, if_pos h, List.mem_map] at ht
      obtain ⟨t', ht', rfl⟩ := ht
      by_cases h2 : t'.id = tid <;> simp_all
    · intro t ht htid
      simp only [update_task_status, if_pos h, List.mem_map] at ht
      obtain ⟨t', ht', rfl⟩ := ht
      by_cases h2 : t'.id = tid <;> simp_all
  · refine ⟨update_task_status_snd s tid st, fun _ => by simp [update_task_status, h],
      fun hv => absurd hv h, ?_⟩
    intro t ht htid
    simpa [update_task_status, h] using ht

/-- Witness for C5: on a store with one pending task, status "completed" is
accepted and "archived" is rejected without change. -/
theorem update_task_status_valid_iff_witness :
    (update_task_status storeOneTask 1 "completed").2 = true
    ∧ update_task_status storeOneTask 1 "archived" = (storeOneTask, false) :=
  ⟨(update_task_status_valid_iff storeOneTask 1 "completed").1.mpr (by decide),
   (update_task_status_valid_iff storeOneTask 1 "archived").2.1 (by decide)⟩

/-- Claim C9: when no task row has the given id, `update_task_status` still
reports success exactly when the status is valid, the store is unchanged even
on success, and the success flag is the same as on any other store and id —
the caller cannot distinguish updating a real task from a missing one. -/
theorem update_task_status_success_ignores_rows (s : Store) (tid : Nat)
    (st : String) (h : ∀ t ∈ s.tasks, t.id ≠ tid) :
    ((update_task_status s tid st).2 = true ↔ st ∈ validStatuses)
    ∧ (update_task_status s tid st).1 = s
    ∧ ∀ (s₂ : Store) (tid₂ : Nat),
        (update_task_status s tid st).2 = (update_task_status s₂ tid₂ st).2 := by
  refine ⟨update_task_status_snd s tid st, ?_, ?_⟩
  · by_cases hv : st ∈ validStatuses
    · simp only [update_task_status, if_pos hv]
      have hmap : s.tasks.map
          (fun t => if t.id = tid then { t with status := st } else t) = s.tasks := by
        conv_rhs => rw [show s.tasks = s.tasks.map id from (List.map_id _).symm]
        exact List.map_congr_left fun t ht => if_neg (h t ht)
      simp [hmap]
    · simp [update_task_status, hv]
  · intro s₂ tid₂
    by_cases hv : st ∈ validStatuses <;> simp [update_task_status, hv]

/-- Witness for C9: store `storeOneTask` holds only task 1, yet updating the
non-existent task 2 to "completed" reports success and changes nothing. -/
theorem update_task_status_success_ignores_rows_witness :
    (update_task_status storeOneTask 2 "completed").2 = true
    ∧ (update_task_status storeOneTask 2 "completed").1 = storeOneTask :=
  ⟨(update_task_status_success_ignores_rows storeOneTask 2 "completed"
      (by decide)).1.mpr (by decide),
   (update_task_status_success_ignores_rows storeOneTask 2 "completed"
      (by decide)).2.1⟩

/-- Embeds the `add_project` handler (src/app.py lines 190-212).  The form's
name field is checked with Python truthiness, so a missing or empty name makes
the handler skip the INSERT entirely and redirect with no error surfaced.
Otherwise one row is inserted; the id comes from AUTOINCREMENT (the store's
counter), status and created_at come from the column defaults ("active" and
the current time, passed as `now`), and the icon is the uploaded bytes when a
file with a filename was posted, NULL otherwise. -/
def add_project (s : Store) (name description : String)
    (icon_data : Option String) (now : Nat) : Store :=
  if name ≠ "" then
    { s with
      projects := s.projects ++
        [{ id := s.nextProjectId, name := name, description := description,
           status := "active", icon_data := icon_data, created_at := now }],
      nextProjectId := s.nextProjectId + 1 }
  else s

/-- Claim C6: creating a project with an empty name changes nothing (and no
error is surfaced — both branches answer the same redirect); with a non-empty
name exactly one project row is appended, carrying the generated id, and when
every existing id is below the AUTOINCREMENT counter the new id collides with
no existing row. -/
theorem add_project_empty_name_noop (s : Store) (nm ds : String)
    (icon : Option String) (now : Nat) :
    add_project s "" ds icon now = s
    ∧ (nm ≠ "" →
        (add_project s nm ds icon now).projects
          = s.projects ++
            [{ id := s.nextProjectId, name := nm, description := ds,
               status := "active", icon_data := icon, created_at := now }]
        ∧ (add_project s nm ds icon now).tasks = s.tasks
        ∧ (add_project s nm ds icon now).comments = s.comments)
    ∧ ((∀ p ∈ s.projects, p.id < s.nextProjectId) → nm ≠ "" →
        ∃ q : Project,
          (add_project s nm ds icon now).projects = s.projects ++ [q]
          ∧ q.name = nm ∧ q.id = s.nextProjectId
          ∧ ∀ p ∈ s.projects, p.id ≠ q.id) := by
  refine ⟨by simp [add_project], fun hnm => by simp [add_project, hnm], ?_⟩
  intro hids hnm
  refine ⟨{ id := s.nextProjectId, name := nm, description := ds,
            status := "active", icon_data := icon, created_at := now },
    by simp [add_project, hnm], rfl, rfl, ?_⟩
  intro p hp
  exact Nat.ne_of_lt (hids p hp)

/-- Witness for C6: adding "beta" to the one-project store appends exactly the
new row; adding an empty name is the identity. -/
theorem add_project_empty_name_noop_witness :
    add_project storeNoTasks "" "d" none 5 = storeNoTasks
    ∧ (add_project storeNoTasks "beta" "d" none 5).projects
        = storeNoTasks.projects ++
          [{ id := storeNoTasks.nextProjectId, name := "beta", description := "d",
             status := "active", icon_data := none, created_at := 5 }] :=
  ⟨(add_project_empty_name_noop storeNoTasks "x" "d" none 5).1,
   ((add_project_empty_name_noop storeNoTasks "beta" "d" none 5).2.1 (by decide)).1⟩

/-- The per-row effect of the UPDATE statements in `update_project`
(src/app.py lines 244-257): the row with the given id gets the new name and
description, and additionally the new icon when an icon file with a filename
was uploaded; every other row — and every other column of the matched row —
is untouched. -/
def updateProjectRow (project_id : Nat) (name description : String)
    (icon_data : Option String) (p : Project) : Project :=
  if p.id = project_id then
    match icon_data with
    | some d => { p with name := name, description := description,
                         icon_data := some d }
    | none => { p with name := name, description := description }
  else p

/-- Embeds the `update_project` handler (src/app.py lines 234-262): with a
falsy (empty/missing) name nothing at all happens; otherwise one of the two
UPDATE statements runs, both of which set name and description, and only the
branch with a freshly uploaded icon also sets icon_data. -/
def update_project (s : Store) (project_id : Nat) (name description : String)
    (icon_data : Option String) : Store :=
  if name ≠ "" then
    { s with projects :=
        s.projects.map (updateProjectRow project_id name description icon_data) }
  else s

/-- Claim C8: updating a project with an empty name is a complete no-op; with
a non-empty name only the projects table is rewritten row by row, where a
non-matching row is untouched and the matching row gets the new name and
description, keeps its id, status and created_at, and gets the new icon
exactly when fresh icon bytes were supplied (keeping the stored icon
otherwise). -/
theorem update_project_overwrites_and_preserves (s : Store) (pid : Nat)
    (nm ds : String) (icon : Option String) (p : Project) :
    update_project s pid "" ds icon = s
    ∧ (nm ≠ "" →
        (update_project s pid nm ds icon).projects
          = s.projects.map (updateProjectRow pid nm ds icon)
        ∧ (update_project s pid nm ds icon).tasks = s.tasks
        ∧ (update_project s pid nm ds icon).comments = s.comments)
    ∧ (p.id ≠ pid → updateProjectRow pid nm ds icon p = p)
    ∧ (p.id = pid →
        (updateProjectRow pid nm ds icon p).name = nm
        ∧ (updateProjectRow pid nm ds icon p).description = ds
        ∧ (updateProjectRow pid nm ds icon p).status = p.status
        ∧ (updateProjectRow pid nm ds icon p).created_at = p.created_at
        ∧ (updateProjectRow pid nm ds icon p).id = p.id
        ∧ (updateProjectRow pid nm ds icon p).icon_data
            = (match icon with
               | some d => some d
               | none => p.icon_data)) := by
  refine ⟨by simp [update_project], fun hnm => by simp [update_project, hnm],
    fun hne => by simp [updateProjectRow, hne], ?_⟩
  intro heq
  cases icon <;> simp [updateProjectRow, heq]

/-- Witness for C8: on the fixture project (id 1, no stored icon) an update
without new icon bytes overwrites name and description and keeps the rest;
aiming at id 2 leaves the row alone; an empty name is a no-op. -/
theorem update_project_overwrites_and_preserves_witness :
    update_project storeNoTasks 1 "" "y" none = storeNoTasks
    ∧ (updateProjectRow 1 "x" "y" none sampleProject).name = "x"
    ∧ updateProjectRow 2 "x" "y" none sampleProject = sampleProject :=
  ⟨(update_project_overwrites_and_preserves storeNoTasks 1 "x" "y" none
      sampleProject).1,
   ((update_project_overwrites_and_preserves storeNoTasks 1 "x" "y" none
      sampleProject).2.2.2 (by decide)).1,
   (update_project_overwrites_and_preserves storeNoTasks 2 "x" "y" none
      sampleProject).2.2.1 (by decide)⟩

/-- Python truthiness of the parsed `entity_id` form field
(`request.form.get` with type int, src/app.py line 420): `None` (missing or
unparsable) and the integer 0 are falsy, every other integer is truthy. -/
def pyTruthyInt (o : Option Int) : Bool :=
  match o with
  | some n => decide (n ≠ 0)
  | none => false

/-- Embeds the `add_comment` handler (src/app.py lines 416-434): the row is
inserted and success=True returned exactly when `entity_type` is "project" or
"task", the parsed `entity_id` is truthy, and `content` is truthy (non-empty);
otherwise nothing is inserted and success=False is returned with HTTP 400.
No existence check of the referenced entity is ever made.  The generated id
comes from AUTOINCREMENT and created_at from the column default (`now`). -/
def add_comment (s : Store) (entity_type : String) (entity_id : Option Int)
    (content author : String) (now : Nat) : Store × Bool :=
  if entity_type ∈ ["project", "task"] ∧ pyTruthyInt entity_id = true
      ∧ content ≠ "" then
    let row : Comment :=
      { id := s.nextCommentId, entity_type := entity_type,
        entity_id := entity_id.getD 0, content := content,
        author := author, created_at := now }
    ({ s with comments := s.comments ++ [row],
              nextCommentId := s.nextCommentId + 1 }, true)
  else (s, false)

/-- Counterexample to C7 as stated: entity_type "task" is valid, an
`entity_id` of 0 is present (the field was submitted and parsed), and the
content is non-empty, yet the comment is rejected and nothing inserted —
Python truthiness treats the integer 0 like a missing field. -/
theorem add_comment_rejects_present_zero_id :
    "task" ∈ ["project", "task"]
    ∧ (some (0 : Int)) ≠ (none : Option Int)
    ∧ ("note" : String) ≠ ""
    ∧ add_comment storeNoTasks "task" (some 0) "note" "User" 3
        = (storeNoTasks, false) := by
  refine ⟨by decide, by decide, by decide, ?_⟩
  decide

lemma pyTruthyInt_iff (o : Option Int) :
    pyTruthyInt o = true ↔ ∃ n : Int, o = some n ∧ n ≠ 0 := by
  cases o <;> simp [pyTruthyInt]

lemma add_comment_of_valid (s : Store) (et : String) (eid : Option Int)
    (content author : String) (now : Nat)
    (h : et ∈ ["project", "task"] ∧ pyTruthyInt eid = true ∧ content ≠ "") :
    add_comment s et eid content author now
      = ({ s with
            comments := s.comments ++
              [{ id := s.nextCommentId, entity_type := et,
                 entity_id := eid.getD 0, content := content,
                 author := author, created_at := now }],
            nextCommentId := s.nextCommentId + 1 }, true) := by
  unfold add_comment
  rw [if_pos h]

lemma add_comment_of_invalid (s : Store) (et : String) (eid : Option Int)
    (content author : String) (now : Nat)
    (h : ¬ (et ∈ ["project", "task"] ∧ pyTruthyInt eid = true ∧ content ≠ "")) :
    add_comment s et eid content author now = (s, false) := by
  unfold add_comment
  rw [if_neg h]

/-- Claim C7 (amended): a comment is inserted with success reported iff
`entity_type` is "project" or "task", `entity_id` is present AND non-zero, and
`content` is non-empty; in every other case the handler reports an explicit
failure and the store is unchanged. -/
theorem add_comment_valid_iff (s : Store) (et : String) (eid : Option Int)
    (content author : String) (now : Nat) :
    ((add_comment s et eid content author now).2 = true ↔
      (et ∈ ["project", "task"] ∧ (∃ n : Int, eid = some n ∧ n ≠ 0)
        ∧ content ≠ ""))
    ∧ ((add_comment s et eid content author now).2 = false →
        add_comment s et eid content author now = (s, false))
    ∧ ((add_comment s et eid content author now).2 = true →
        (add_comment s et eid content author now).1.comments
          = s.comments ++
            [{ id := s.nextCommentId, entity_type := et,
               entity_id := eid.getD 0, content := content,
               author := author, created_at := now }]) := by
  by_cases h : et ∈ ["project", "task"] ∧ pyTruthyInt eid = true ∧ content ≠ ""
  · have hpos := add_comment_of_valid s et eid content author now h
    refine ⟨?_, ?_, fun _ => by rw [hpos]⟩
    · exact ⟨fun _ => ⟨h.1, (pyTruthyInt_iff eid).mp h.2.1, h.2.2⟩,
        fun _ => by rw [hpos]⟩
    · intro hfalse
      rw [hpos] at hfalse
      exact absurd hfalse (by simp)
  · have hneg := add_comment_of_invalid s et eid content author now h
    refine ⟨?_, fun _ => hneg, ?_⟩
    · rw [hneg]
      exact ⟨fun hx => absurd hx (by simp),
        fun hr => absurd ⟨hr.1, (pyTruthyInt_iff eid).mpr hr.2.1, hr.2.2⟩ h⟩
    · intro htrue
      rw [hneg] at htrue
      exact absurd htrue (by simp)

/-- Witness for C7 (amended): a well-formed comment on project 1 is accepted,
and the spec's own example entity_type "widget" is rejected without change. -/
theorem add_comment_valid_iff_witness :
    (add_comment storeNoTasks "project" (some 1) "hi" "User" 4).2 = true
    ∧ add_comment storeNoTasks "widget" (some 1) "hi" "User" 4
        = (storeNoTasks, false) :=
  ⟨(add_comment_valid_iff storeNoTasks "project" (some 1) "hi" "User" 4).1.mpr
      ⟨by decide, ⟨1, rfl, by decide⟩, by decide⟩,
   (add_comment_valid_iff storeNoTasks "widget" (some 1) "hi" "User" 4).2.1
      (by decide)⟩

/-- Claim C10: `add_comment` never checks that the referenced entity exists —
for a valid entity_type and non-empty content, every non-zero integer
entity_id is inserted with success reported, the outcome being the same as on
a store with no projects and no tasks at all; entity_id 0, although present,
is rejected like a missing field. -/
theorem add_comment_dangling_reference (s : Store) (et : String) (n : Int)
    (content author : String) (now : Nat)
    (ht : et ∈ ["project", "task"]) (hc : content ≠ "") :
    (n ≠ 0 →
      (add_comment s et (some n) content author now).2 = true
      ∧ (add_comment s et (some n) content author now).1.comments
          = s.comments ++
            [{ id := s.nextCommentId, entity_type := et, entity_id := n,
               content := content, author := author, created_at := now }])
    ∧ (add_comment s et (some n) content author now).2
        = (add_comment { s with projects := [], tasks := [] }
            et (some n) content author now).2
    ∧ add_comment s et (some 0) content author now = (s, false) := by
  have hzero : ¬ (et ∈ ["project", "task"] ∧ pyTruthyInt (some 0) = true
      ∧ content ≠ "") := fun hcon => absurd hcon.2.1 (by decide)
  refine ⟨?_, ?_, ?_⟩
  · intro hn
    have h : et ∈ ["project", "task"] ∧ pyTruthyInt (some n) = true
        ∧ content ≠ "" := ⟨ht, by simp [pyTruthyInt, hn], hc⟩
    have hpos := add_comment_of_valid s et (some n) content author now h
    exact ⟨by rw [hpos], by rw [hpos]; rfl⟩
  · by_cases hn : n = 0
    · subst hn
      rw [add_comment_of_invalid s et (some 0) content author now hzero,
        add_comment_of_invalid { s with projects := [], tasks := [] }
          et (some 0) content author now hzero]
    · have h : et ∈ ["project", "task"] ∧ pyTruthyInt (some n) = true
          ∧ content ≠ "" := ⟨ht, by simp [pyTruthyInt, hn], hc⟩
      rw [add_comment_of_valid s et (some n) content author now h,
        add_comment_of_valid { s with projects := [], tasks := [] }
          et (some n) content author now h]
  · exact add_comment_of_invalid s et (some 0) content author now hzero

/-- Witness for C10: `storeNoTasks` has no task at all, yet a comment on
"task" 42 is accepted, while entity_id 0 is rejected. -/
theorem add_comment_dangling_reference_witness :
    (add_comment storeNoTasks "task" (some 42) "hi" "User" 6).2 = true
    ∧ add_comment storeNoTasks "task" (some 0) "hi" "User" 6
        = (storeNoTasks, false) :=
  ⟨((add_comment_dangling_reference storeNoTasks "task" 42 "hi" "User" 6
      (by decide) (by decide)).1 (by decide)).1,
   (add_comment_dangling_reference storeNoTasks "task" 0 "hi" "User" 6
      (by decide) (by decide)).2.2⟩

end NProject
